import Mathlib

set_option maxRecDepth 100000
set_option linter.unusedVariables false

/-!
Shallow embedding of `src/app.py` (playbook sector map scanner).

Number model: prices, volumes and all derived metrics are exact rationals
(`ℚ`); dates are `Nat` (a calendar day ordinal — only equality of dates is
ever used by the program). A fetched price series (`pandas.DataFrame` with
columns Date/Close/Volume, ordered oldest first) is a `List Sample`; the
snapshot of fetched series (`data_map` dict) is a partial map from symbol
strings to series.
-/

/-- One row of a fetched price series: (Date, Close, Volume). -/
structure Sample where
  date : Nat
  close : ℚ
  volume : ℚ
  deriving DecidableEq, Repr

/-- A time-ordered price series, oldest sample first (`df` in the source). -/
abbrev Series := List Sample

/-- The snapshot of fetched series, keyed by (canonical) symbol (`data_map`). -/
abbrev DataMap := String → Option Series

/-- The hardcoded sector → ticker catalog (`PLAYBOOK` in `src/app.py`). -/
def PLAYBOOK : List (String × List String) :=
  [("AI Apps & Software", ["PLTR", "ZETA", "APP", "RDDT", "TWLO"]),
   ("Data Center Components", ["VRT", "MU", "ANET", "CSCO", "COHR", "CRDO", "ALAB"]),
   ("AI General Chips", ["NVDA", "AMD", "INTC", "KSTR"]),
   ("AI Mobile Chips", ["ARM", "QCOM", "AAPL"]),
   ("AI Custom Chips", ["AVGO", "MRVL", "GOOG", "AMZN"]),
   ("Grid Modernization", ["GEV", "PWR", "GRID", "MTZ", "PAVE"]),
   ("Data Center Power", ["OKLO", "CEG", "VST", "NEE"]),
   ("Robotics", ["TSLA", "SYM", "ISRG", "ROBO", "BOTZ"]),
   ("Nuclear Materials", ["CCJ", "LEU", "UEC", "UUUU"]),
   ("Precious Metals", ["GLD", "SLV", "CPER", "FCX", "HBM", "PAAS", "NEM"]),
   ("Healthcare", ["LLY", "VTR", "WELL", "CVS", "MRK"]),
   ("Auto Sensors", ["ON", "NXPI", "MBLY", "MGA"]),
   ("International", ["SFTBY", "TOELY", "ITOCY", "PKX", "TSM", "UBS", "BIDU", "BABA"]),
   ("SpaceX Concepts", ["SATS", "DXYZ", "GOOG", "SMT.L", "ARKVX"]),
   ("Space Tech", ["LUNR", "RKLB", "ASTS", "PL"]),
   ("Quantum", ["RGTI", "IONQ", "IBM", "QBTS"]),
   ("Drones", ["AVAV", "KTOS", "RCAT", "ONDS", "DPRO"])]

/-- Symbol canonicalization `t.replace('.', '-')` (dot-alias to dash, as in
`ALL_TICKERS` and the per-stock lookup `clean_t`). The pattern is a single
character, so character-wise mapping is exactly Python's `str.replace`. -/
def clean (t : String) : String := ⟨t.data.map (fun c => if c = '.' then '-' else c)⟩

/-- Python negative indexing `df.iloc[-k]` for a series known to have at least
`k` rows (every series the algorithm touches has more than 22). Out-of-range
access (which would raise in Python) falls back to a zero sample. -/
def ilocNeg (df : Series) (k : Nat) : Sample := df.getD (df.length - k) ⟨0, 0, 0⟩

/-- Python slice `df.iloc[-a:-b]` (for `a > b > 0`): the rows with negative
indices `-a, …, -(b+1)`, with Python's clamping of a start index that
reaches past the front of the list. -/
def pySlice (df : Series) (a b : Nat) : Series :=
  (df.drop (df.length - a)).take ((df.length - b) - (df.length - a))

/-- Arithmetic mean of a list of rationals (`pandas .mean()`; the algorithm
only applies it to the nonempty 20-row windows). -/
def listMean (l : List ℚ) : ℚ := l.sum / l.length

/-- Date of the most recent sample, `df['Date'].iloc[-1].date()`. -/
def lastDate (df : Series) : Nat := (ilocNeg df 1).date

/-- Day-over-day change percentage of a series,
`(curr['Close'] - prev['Close']) / prev['Close'] * 100` with `curr = df.iloc[-1]`
and `prev = df.iloc[-2]`. -/
def changePctOf (df : Series) : ℚ :=
  ((ilocNeg df 1).close - (ilocNeg df 2).close) / (ilocNeg df 2).close * 100

/-- The benchmark day-over-day change `spy_change`; the source computes it by
the same last-two-closes formula as the per-stock change. -/
def benchChange (spy : Series) : ℚ := changePctOf spy

/-- Trailing average volume as the code computes it:
`df['Volume'].iloc[-22:-2].mean()` — the 20 samples at negative indices
-22 … -3, excluding both the latest sample and the one before it. -/
def avgVolOf (df : Series) : ℚ := listMean ((pySlice df 22 2).map (·.volume))

/-- The 20-day simple moving average of closes as the code computes it:
`df['Close'].iloc[-21:-1].mean()` — the 20 samples at negative indices
-21 … -2, including yesterday and excluding the latest sample. -/
def sma20Of (df : Series) : ℚ := listMean ((pySlice df 21 1).map (·.close))

/-- Per-stock record appended to `sector_scores` in the source: ticker,
alpha, relative volume, above-MA flag, raw stock score (`Heat Score` there),
change percentage, latest price, and the constant visual weight `Size`. -/
structure StockRow where
  ticker : String
  alpha : ℚ
  rvol : ℚ
  aboveMA : Bool
  heatScore : Nat
  changePct : ℚ
  price : ℚ
  size : Nat
  deriving DecidableEq, Repr

/-- One row of the final result table built in `run_strict_algorithm`:
sector name, ticker, the sector's gated score (`Heat Score`), the stock's own
raw score (`Stock Score`), relative volume, change percentage, price, size. -/
structure ResultRow where
  sector : String
  ticker : String
  heatScore : Nat
  stockScore : Nat
  rvol : ℚ
  changePct : ℚ
  price : ℚ
  size : Nat
  deriving DecidableEq, Repr

/-- The per-stock alpha, `alpha_val = change_pct - spy_change`. -/
def alphaOf (df : Series) (spyChange : ℚ) : ℚ := changePctOf df - spyChange

/-- The per-stock relative volume with its zero-guard,
`rvol = curr['Volume'] / avg_vol if avg_vol > 0 else 0`. -/
def rvolOf (df : Series) : ℚ :=
  if 0 < avgVolOf df then (ilocNeg df 1).volume / avgVolOf df else 0

/-- The trend flag `price_above_ma = curr['Close'] > sma20`. -/
def aboveMAOf (df : Series) : Bool := decide (sma20Of df < (ilocNeg df 1).close)

/-- The raw 0–100 per-stock score: 40 for positive alpha, 30 for relative
volume above 1.10, 20 for price above the 20-day MA, 10 for positive change. -/
def stockScoreOf (df : Series) (spyChange : ℚ) : Nat :=
  (if 0 < alphaOf df spyChange then 40 else 0) +
  (if (11 : ℚ)/10 < rvolOf df then 30 else 0) +
  (if aboveMAOf df then 20 else 0) +
  (if 0 < changePctOf df then 10 else 0)

/-- The dict appended to `sector_scores` for one qualifying stock. -/
def mkStockRow (spyChange : ℚ) (t : String) (df : Series) : StockRow :=
  { ticker := t, alpha := alphaOf df spyChange, rvol := rvolOf df,
    aboveMA := aboveMAOf df, heatScore := stockScoreOf df spyChange,
    changePct := changePctOf df, price := (ilocNeg df 1).close, size := 1 }

/-- The body of the inner per-ticker loop of `run_strict_algorithm`: look the
cleaned ticker up in the snapshot (`continue` when absent), reject a series
whose latest date differs from the benchmark's latest date (`continue`), and
otherwise compute the per-stock metrics and score. `none` is the silent
exclusion; `some` is the appended `sector_scores` entry. -/
def stockEntry (dm : DataMap) (spyDate : Nat) (spyChange : ℚ) (t : String) :
    Option StockRow :=
  match dm (clean t) with
  | none => none
  | some df =>
    if lastDate df ≠ spyDate then none
    else some (mkStockRow spyChange t df)

/-- The `sector_scores` list a sector's loop accumulates: the qualifying
stocks of the sector, in catalog order. `total_stocks` is its length and
`green_stocks` is the number of its entries with positive change. -/
def sectorEntries (dm : DataMap) (spyDate : Nat) (spyChange : ℚ)
    (tickers : List String) : List StockRow :=
  tickers.filterMap (stockEntry dm spyDate spyChange)

/-- Breadth `pct_green = green_stocks / total_stocks` of a qualifying set. -/
def pctGreenOf (entries : List StockRow) : ℚ :=
  ((entries.filter (fun e => 0 < e.changePct)).length : ℚ) / entries.length

/-- The ungated 0–100 sector score: 40 for positive average alpha, 30 for
average relative volume above 1.10, 20 for average trend above 0.5, 10 for
breadth above 0.5 — with the averages formed exactly as in the source
(`sum(...) / total_stocks` where `total_stocks` is the number of qualifying
entries, booleans summed as 0/1). -/
def sectorRawScore (entries : List StockRow) : Nat :=
  (if 0 < listMean (entries.map (·.alpha)) then 40 else 0) +
  (if (11 : ℚ)/10 < listMean (entries.map (·.rvol)) then 30 else 0) +
  (if (1 : ℚ)/2 < listMean (entries.map (fun e => if e.aboveMA then (1 : ℚ) else 0)) then 20
   else 0) +
  (if (1 : ℚ)/2 < pctGreenOf entries then 10 else 0)

/-- The hard gate: `if pct_green <= 0.5: score = min(score, 59)`. -/
def sectorGatedScore (entries : List StockRow) : Nat :=
  if pctGreenOf entries ≤ 1/2 then min (sectorRawScore entries) 59
  else sectorRawScore entries

/-- The flattened result-table dict appended for one qualifying stock of a
sector whose gated score is `g`. -/
def mkResultRow (sector : String) (g : Nat) (e : StockRow) : ResultRow :=
  { sector := sector, ticker := e.ticker, heatScore := g, stockScore := e.heatScore,
    rvol := e.rvol, changePct := e.changePct, price := e.price, size := 1 }

/-- One sector's pass of the outer loop of `run_strict_algorithm`: collect
the qualifying stocks, and when `total_stocks > 0` emit one flattened result
row per qualifying stock, each carrying the sector's gated score; a sector
with no qualifying stock contributes no row. -/
def sectorPass (dm : DataMap) (spyDate : Nat) (spyChange : ℚ)
    (sector : String) (tickers : List String) : List ResultRow :=
  if 0 < (sectorEntries dm spyDate spyChange tickers).length then
    (sectorEntries dm spyDate spyChange tickers).map
      (mkResultRow sector (sectorGatedScore (sectorEntries dm spyDate spyChange tickers)))
  else []

/-- The scoring engine `run_strict_algorithm(data_map)`: when the SPY series
is absent the function returns the empty table at once; otherwise it fixes
the benchmark date and change from SPY's last two rows and concatenates the
sector passes over the catalog. -/
def run_strict_algorithm (dm : DataMap) : List ResultRow :=
  match dm "SPY" with
  | none => []
  | some spy =>
    PLAYBOOK.flatMap (fun p => sectorPass dm (lastDate spy) (benchChange spy) p.1 p.2)

/-- The validation step of `fetch_safe_data`, per symbol: a series the
provider returned enters `data_map` only when `len(df) > 22`; a missing or
too-short series is silently dropped. `raw` abstracts the provider response
(already date-ordered and `dropna`-cleaned) for each fetched ticker. -/
def fetch_safe_data (raw : String → Option Series) : DataMap := fun t =>
  match raw t with
  | some df => if 22 < df.length then some df else none
  | none => none

/-- Pandas `df.sort_values('RVol', ascending=False)` as `top_picks` calls it.
Pandas' single-key sort computes the ascending argsort of the column with the
chosen kind and, for `ascending=False`, reverses the resulting indexer. The
default kind (`quicksort`, numpy's introsort) is documented by pandas as not
stable; on frames below numpy's small-array cutoff it runs as a plain
insertion sort, which is stable. This model covers that small-frame regime:
a stable ascending sort by relative volume, then a full reversal — so rows
tied on relative volume come out in reverse of their input order. -/
def sortValuesDescRVol (l : List ResultRow) : List ResultRow :=
  (List.insertionSort (fun a b => a.rvol ≤ b.rvol) l).reverse

/-- The "Rule of 3" ranker of the source: keep rows whose sector gated score
(`Heat Score`) is at least 80 and whose relative volume exceeds 1.2, sort
descending by relative volume, keep the first 3 (`.head(3)`). -/
def top_picks (df : List ResultRow) : List ResultRow :=
  (sortValuesDescRVol (df.filter (fun r => 80 ≤ r.heatScore ∧ (6 : ℚ)/5 < r.rvol))).take 3

/-- Modelled from the spec: the ranker's sort as the spec words it —
descending by relative volume, ties broken by original catalog order, i.e. a
stable descending sort. Stated for comparison with `sortValuesDescRVol`. -/
def stableSortDescRVol (l : List ResultRow) : List ResultRow :=
  List.insertionSort (fun a b => b.rvol ≤ a.rvol) l

/-- Modelled from the spec: `topPicks` with the spec's stable tie-breaking;
filter and truncation as in the source. -/
def top_picks_spec (df : List ResultRow) : List ResultRow :=
  (stableSortDescRVol (df.filter (fun r => 80 ≤ r.heatScore ∧ (6 : ℚ)/5 < r.rvol))).take 3

/-- Modelled from the spec: the trailing average volume over the 20 samples
at indices [-21:-1) — including yesterday, excluding the latest sample; the
same window the source uses for the close moving average `sma20Of`. Stated
for comparison with the source's `avgVolOf`. -/
def specAvgVolume (df : Series) : ℚ := listMean ((pySlice df 21 1).map (·.volume))

/-- The distinct sector names of a result table
(`df.groupby('Sector')` group keys; only their count and their first rows
matter to the banner, not their order). -/
def uniqueSectors (df : List ResultRow) : List String := (df.map (·.sector)).dedup

/-- `df.groupby('Sector')['Heat Score'].first()` for one sector name: the
gated score carried by the sector's first row of the result table. -/
def firstScore (df : List ResultRow) (s : String) : Nat :=
  match df.find? (fun r => r.sector = s) with
  | some r => r.heatScore
  | none => 0

/-- `passing_sectors`: the number of sectors whose first-row score is ≥ 60. -/
def passingSectors (df : List ResultRow) : Nat :=
  ((uniqueSectors df).filter (fun s => 60 ≤ firstScore df s)).length

/-- `total_sectors`: the number of distinct sectors in the result table. -/
def totalSectors (df : List ResultRow) : Nat := (uniqueSectors df).length

/-- `ratio = passing_sectors / total_sectors` of the banner. -/
def marketRatio (df : List ResultRow) : ℚ := (passingSectors df : ℚ) / totalSectors df

/-- The banner tier: BULLISH when ratio > 0.5, else CHOPPY when ratio > 0.3,
else DEFENSIVE. -/
def marketStatus (df : List ResultRow) : String :=
  if 1/2 < marketRatio df then "BULLISH"
  else if 3/10 < marketRatio df then "CHOPPY"
  else "DEFENSIVE"

/-- One scan over a fixed snapshot, with the ambient wall-clock time made an
explicit parameter: `run_strict_algorithm` reads no clock and no mutable
state, so the parameter is unused — which is exactly what the determinism
claim asserts. -/
def run_scan (now : Nat) (dm : DataMap) : List ResultRow :=
  run_strict_algorithm dm

/-- Assemble a snapshot from an association list (a literal `data_map`). -/
def mapOf (l : List (String × Series)) : DataMap := fun t =>
  (l.find? (fun p => p.1 = t)).map (·.2)

/-- A 23-sample series (dates 0 … 22) with constant close and volume. -/
def flatSeries (c v : ℚ) : Series := (List.range 23).map (fun i => ⟨i, c, v⟩)

/-- A 23-sample series (dates 0 … 22): 21 constant samples, then explicit
samples for yesterday (date 21) and the latest day (date 22). -/
def seriesTail2 (c v cPrev vPrev cLast vLast : ℚ) : Series :=
  (List.range 21).map (fun i => ⟨i, c, v⟩) ++ [⟨21, cPrev, vPrev⟩, ⟨22, cLast, vLast⟩]

/-- A minimal healthy snapshot: a flat benchmark and one flat stock. -/
def dmFlat : DataMap := mapOf [("SPY", flatSeries 100 10), ("PLTR", flatSeries 50 10)]

/-- The single result row the scan produces on `dmFlat`. -/
def flatRow : ResultRow :=
  { sector := "AI Apps & Software", ticker := "PLTR", heatScore := 0, stockScore := 0,
    rvol := 1, changePct := 0, price := 50, size := 1 }

/-- A snapshot with a stock whose trailing-window volumes are all zero. -/
def dmZeroVol : DataMap := mapOf [("SPY", flatSeries 100 10), ("PLTR", flatSeries 50 0)]

/-- The `sector_scores` entry the scan computes for PLTR on `dmZeroVol`. -/
def zeroVolRow : StockRow :=
  { ticker := "PLTR", alpha := 0, rvol := 0, aboveMA := false, heatScore := 0,
    changePct := 0, price := 50, size := 1 }

/-- A snapshot with no benchmark but a perfectly valid stock series. -/
def dmNoSpy : DataMap := mapOf [("PLTR", flatSeries 50 10)]

/-- A 23-sample series whose volume is 20 at index 1 (inside the code's
`[-22:-2]` window, outside the spec's `[-21:-1]` window), 5 at the latest
sample, and 0 elsewhere; closes are flat at 50. -/
def skewVolSeries : Series :=
  (List.range 23).map (fun i => ⟨i, 50, if i = 1 then 20 else if i = 22 then 5 else 0⟩)

/-- A snapshot exercising the volume-window discrepancy. -/
def dmSkewVol : DataMap := mapOf [("SPY", flatSeries 100 10), ("PLTR", skewVolSeries)]

/-- A strongly rallying stock: close jumps 10 → 20 on 10× volume. -/
def armSeries : Series := seriesTail2 10 10 10 10 20 100

/-- A declining stock: close drops 10 → 5 on unchanged volume. -/
def qcomSeries : Series := seriesTail2 10 10 10 10 5 10

/-- A snapshot where sector "AI Mobile Chips" has one strong green stock and
one red stock: breadth exactly 1/2 while alpha and volume subscores fire. -/
def dmGate : DataMap :=
  mapOf [("SPY", flatSeries 100 10), ("ARM", armSeries), ("QCOM", qcomSeries)]

/-- A snapshot containing GOOG, which the catalog lists in two sectors. -/
def dmGoog : DataMap := mapOf [("SPY", flatSeries 100 10), ("GOOG", flatSeries 50 10)]

/-- The `sector_scores` entry the scan computes for GOOG on `dmGoog`
(in both sectors that list it). -/
def googRow : StockRow :=
  { ticker := "GOOG", alpha := 0, rvol := 1, aboveMA := false, heatScore := 0,
    changePct := 0, price := 50, size := 1 }

/-- Two ranker input rows in a high-scoring sector, tied on relative volume
1.5, listed in catalog order AAA then BBB. -/
def rowA : ResultRow :=
  { sector := "SectorOne", ticker := "AAA", heatScore := 90, stockScore := 100,
    rvol := 3/2, changePct := 1, price := 10, size := 1 }

/-- The second tied ranker input row; identical to `rowA` except the ticker. -/
def rowB : ResultRow :=
  { sector := "SectorOne", ticker := "BBB", heatScore := 90, stockScore := 100,
    rvol := 3/2, changePct := 1, price := 10, size := 1 }

/-- Modelled from the spec: a sector of the result table counts as passing
when its gated score — the `Heat Score` carried by each of its rows — is at
least 60; this counts the distinct passing sectors. -/
def specPassing (df : List ResultRow) : Nat :=
  ((uniqueSectors df).filter (fun s => ∀ r ∈ df, r.sector = s → 60 ≤ r.heatScore)).length

theorem fetch_some_iff {raw : String → Option Series} {s : String} {df : Series} :
    fetch_safe_data raw s = some df ↔ raw s = some df ∧ 22 < df.length := by
  unfold fetch_safe_data
  cases hr : raw s with
  | none => simp
  | some d =>
    dsimp only
    by_cases hl : 22 < d.length
    · rw [if_pos hl]
      simp only [Option.some.injEq]
      constructor
      · rintro rfl; exact ⟨rfl, hl⟩
      · rintro ⟨rfl, _⟩; rfl
    · rw [if_neg hl]
      simp only [Option.some.injEq]
      constructor
      · intro h; exact absurd h (by simp)
      · rintro ⟨rfl, h2⟩; exact absurd h2 hl

theorem stockEntry_ticker {dm : DataMap} {d : Nat} {c : ℚ} {t : String} {e : StockRow}
    (h : stockEntry dm d c t = some e) : e.ticker = t := by
  unfold stockEntry at h
  split at h
  · simp at h
  · split at h
    · simp at h
    · injection h with h
      subst h
      rfl

theorem stockEntry_eq_some_iff {dm : DataMap} {d : Nat} {c : ℚ} {t : String} :
    (∃ e, stockEntry dm d c t = some e) ↔
      ∃ df, dm (clean t) = some df ∧ lastDate df = d := by
  unfold stockEntry
  cases hm : dm (clean t) with
  | none => simp
  | some df =>
    dsimp only
    by_cases hd : lastDate df ≠ d
    · rw [if_pos hd]
      simp only [Option.some.injEq]
      constructor
      · rintro ⟨e, he⟩; exact absurd he (by simp)
      · rintro ⟨df2, rfl, h2⟩; exact absurd h2 hd
    · rw [if_neg hd]
      push_neg at hd
      simp only [Option.some.injEq]
      constructor
      · rintro ⟨e, _⟩; exact ⟨df, rfl, hd⟩
      · rintro ⟨df2, rfl, _⟩; exact ⟨mkStockRow c t df, rfl⟩

theorem mem_sectorEntries_ticker {dm : DataMap} {d : Nat} {c : ℚ}
    {ts : List String} {t : String} (ht : t ∈ ts) :
    (∃ e ∈ sectorEntries dm d c ts, e.ticker = t) ↔
      ∃ e, stockEntry dm d c t = some e := by
  constructor
  · rintro ⟨e, he, rfl⟩
    rw [sectorEntries, List.mem_filterMap] at he
    obtain ⟨u, _, hue⟩ := he
    rw [stockEntry_ticker hue]
    exact ⟨e, hue⟩
  · rintro ⟨e, he⟩
    exact ⟨e, by rw [sectorEntries, List.mem_filterMap]; exact ⟨t, ht, he⟩,
           stockEntry_ticker he⟩

theorem mem_sectorPass {dm : DataMap} {d : Nat} {c : ℚ} {sec : String}
    {ts : List String} {r : ResultRow} :
    r ∈ sectorPass dm d c sec ts ↔
      ∃ e ∈ sectorEntries dm d c ts,
        r = mkResultRow sec (sectorGatedScore (sectorEntries dm d c ts)) e := by
  unfold sectorPass
  split
  · rw [List.mem_map]
    constructor
    · rintro ⟨e, he, rfl⟩; exact ⟨e, he, rfl⟩
    · rintro ⟨e, he, rfl⟩; exact ⟨e, he, rfl⟩
  · next h =>
    have hE : sectorEntries dm d c ts = [] := by
      cases hE : sectorEntries dm d c ts with
      | nil => rfl
      | cons a l => rw [hE] at h; exact absurd (by simp) h
    rw [hE]
    simp

theorem mem_run {dm : DataMap} {r : ResultRow} {spy : Series}
    (hspy : dm "SPY" = some spy) :
    r ∈ run_strict_algorithm dm ↔
      ∃ p ∈ PLAYBOOK, r ∈ sectorPass dm (lastDate spy) (benchChange spy) p.1 p.2 := by
  unfold run_strict_algorithm
  rw [hspy]
  exact List.mem_flatMap

theorem score_mem (p q u w : Prop) [Decidable p] [Decidable q] [Decidable u] [Decidable w] :
    ((if p then 40 else 0) + (if q then 30 else 0) + (if u then 20 else 0) +
      (if w then 10 else 0) : Nat) ∈ [0, 10, 20, 30, 40, 50, 60, 70, 80, 90, 100] := by
  split_ifs <;> decide

theorem gated_score_mem (p q u : Prop) [Decidable p] [Decidable q] [Decidable u] :
    min ((if p then 40 else 0) + (if q then 30 else 0) + (if u then 20 else 0) + 0) 59 ∈
      [0, 10, 20, 30, 40, 50, 59, 60, 70, 80, 90, 100] := by
  split_ifs <;> decide

theorem tens_mem_extended {n : Nat} (h : n ∈ [0, 10, 20, 30, 40, 50, 60, 70, 80, 90, 100]) :
    n ∈ [0, 10, 20, 30, 40, 50, 59, 60, 70, 80, 90, 100] := by
  fin_cases h <;> decide

theorem stockEntry_score_mem {dm : DataMap} {d : Nat} {c : ℚ} {t : String} {e : StockRow}
    (h : stockEntry dm d c t = some e) :
    e.heatScore ∈ [0, 10, 20, 30, 40, 50, 60, 70, 80, 90, 100] := by
  unfold stockEntry at h
  split at h
  · simp at h
  · split at h
    · simp at h
    · injection h with h
      subst h
      exact score_mem _ _ _ _

theorem sectorGatedScore_mem (entries : List StockRow) :
    sectorGatedScore entries ∈ [0, 10, 20, 30, 40, 50, 59, 60, 70, 80, 90, 100] := by
  unfold sectorGatedScore
  split
  · next hg =>
    have hng : ¬ ((1 : ℚ)/2 < pctGreenOf entries) := not_lt.mpr hg
    unfold sectorRawScore
    rw [if_neg hng]
    exact gated_score_mem _ _ _
  · exact tens_mem_extended (score_mem _ _ _ _)

theorem assoc_key_fun {α β : Type} {l : List (α × β)} (hnd : (l.map Prod.fst).Nodup)
    {a : α} {b1 b2 : β} (h1 : (a, b1) ∈ l) (h2 : (a, b2) ∈ l) : b1 = b2 := by
  induction l with
  | nil => cases h1
  | cons p tl ih =>
    rw [List.map_cons, List.nodup_cons] at hnd
    rcases List.mem_cons.mp h1 with hm1 | hm1
    · rcases List.mem_cons.mp h2 with hm2 | hm2
      · have h3 := hm1.trans hm2.symm
        injection h3
      · subst hm1
        refine absurd ?_ hnd.1
        exact List.mem_map.mpr ⟨(a, b2), hm2, rfl⟩
    · rcases List.mem_cons.mp h2 with hm2 | hm2
      · subst hm2
        refine absurd ?_ hnd.1
        exact List.mem_map.mpr ⟨(a, b1), hm1, rfl⟩
      · exact ih hnd.2 hm1 hm2

theorem playbook_keys_nodup : (PLAYBOOK.map Prod.fst).Nodup := by decide

theorem run_sector_heat {dm : DataMap} {spy : Series} (hspy : dm "SPY" = some spy)
    {r : ResultRow} (hr : r ∈ run_strict_algorithm dm) :
    ∃ ts, (r.sector, ts) ∈ PLAYBOOK ∧
      r.heatScore = sectorGatedScore (sectorEntries dm (lastDate spy) (benchChange spy) ts) := by
  rw [mem_run hspy] at hr
  obtain ⟨⟨sec, ts⟩, hp, hrp⟩ := hr
  rw [mem_sectorPass] at hrp
  obtain ⟨e, he, rfl⟩ := hrp
  exact ⟨ts, hp, rfl⟩

theorem run_heat_consistent {dm : DataMap} {r1 r2 : ResultRow}
    (h1 : r1 ∈ run_strict_algorithm dm) (h2 : r2 ∈ run_strict_algorithm dm)
    (hs : r1.sector = r2.sector) : r1.heatScore = r2.heatScore := by
  cases hspy : dm "SPY" with
  | none =>
    unfold run_strict_algorithm at h1
    rw [hspy] at h1
    simp at h1
  | some spy =>
    obtain ⟨ts1, hp1, he1⟩ := run_sector_heat hspy h1
    obtain ⟨ts2, hp2, he2⟩ := run_sector_heat hspy h2
    rw [hs] at hp1
    rw [he1, he2, assoc_key_fun playbook_keys_nodup hp1 hp2]

/-- C9: Determinism: for a fixed catalog and a fixed snapshot of fetched
series, two invocations of the scoring function — at any two ambient
wall-clock times — yield identical result sets; `run_strict_algorithm` reads
no clock and no hidden global state. -/
theorem scan_deterministic (t1 t2 : Nat) (dm : DataMap) :
    run_scan t1 dm = run_scan t2 dm := rfl

/-- C7: Relative-volume zero-guard: whenever a scored stock's trailing
average volume `avg_vol` is not strictly positive, the guarded branch yields
relative volume exactly 0 and no division is performed (the embedding is
total, mirroring that no division error can occur). -/
theorem rvol_zero_guard (dm : DataMap) (d : Nat) (c : ℚ) (t : String) (df : Series)
    (e : StockRow) (hdf : dm (clean t) = some df) (he : stockEntry dm d c t = some e)
    (hvol : ¬ 0 < avgVolOf df) : e.rvol = 0 := by
  unfold stockEntry at he
  rw [hdf] at he
  dsimp only at he
  split at he
  · simp at he
  · injection he with he
    subst he
    show rvolOf df = 0
    unfold rvolOf
    rw [if_neg hvol]

/-- Witness for C7: on `dmZeroVol` the PLTR series has trailing average
volume 0; the scan's entry for it carries relative volume exactly 0. -/
theorem rvol_zero_guard_witness :
    dmZeroVol (clean "PLTR") = some (flatSeries 50 0) ∧
      ¬ 0 < avgVolOf (flatSeries 50 0) ∧ zeroVolRow.rvol = 0 :=
  ⟨by with_unfolding_all decide, by with_unfolding_all decide,
   rvol_zero_guard dmZeroVol 22 0 "PLTR" (flatSeries 50 0) zeroVolRow
     (by with_unfolding_all decide) (by with_unfolding_all decide)
     (by with_unfolding_all decide)⟩

/-- C3 counterexample: on a snapshot with no Benchmark series but a fully
valid stock series (23 aligned samples for PLTR), the scan does not proceed
in any degraded mode: it returns the empty result table, so the stock is
excluded and nothing is scored — refuting the claim that scoring continues
with `benchmarkChange = 0` and that no stock is excluded. -/
theorem benchmark_absent_not_degraded :
    dmNoSpy "SPY" = none ∧ (dmNoSpy (clean "PLTR")).isSome ∧
      run_strict_algorithm dmNoSpy = [] := by
  refine ⟨?_, ?_, ?_⟩ <;> with_unfolding_all decide

/-- C3 (amended): when the Benchmark (SPY) series is absent from the
snapshot, the scan aborts at once and returns the empty result set: no stock
is scored, and no degraded-mode scoring with `benchmarkChange = 0` exists. -/
theorem benchmark_absent_returns_empty (dm : DataMap) (h : dm "SPY" = none) :
    run_strict_algorithm dm = [] := by
  unfold run_strict_algorithm
  rw [h]

/-- Witness for the amended C3: the concrete benchmark-free snapshot. -/
theorem benchmark_absent_returns_empty_witness :
    dmNoSpy "SPY" = none ∧ run_strict_algorithm dmNoSpy = [] :=
  ⟨by with_unfolding_all decide,
   benchmark_absent_returns_empty dmNoSpy (by with_unfolding_all decide)⟩

/-- C4 evaluated at the failing input: on `skewVolSeries` the code's trailing
volume window `iloc[-22:-2]` (excluding yesterday) averages to 1, while the
spec's window `[-21:-1)` (including yesterday, the same window the code uses
for the close moving average) averages to 0; the scan's emitted relative
volume is 5 = latestVolume / 1, where the spec's window would force the
zero-guard value 0. -/
theorem trailing_volume_window_eval :
    avgVolOf skewVolSeries = 1 ∧ specAvgVolume skewVolSeries = 0 ∧
      avgVolOf skewVolSeries ≠ specAvgVolume skewVolSeries ∧
      (run_strict_algorithm dmSkewVol).map (·.rvol) = [5] := by
  refine ⟨?_, ?_, ?_, ?_⟩ <;> with_unfolding_all decide

/-- C6 evaluated at the failing input: two rows tied at relative volume 1.5,
in catalog order AAA then BBB, both in a sector scoring 90 — the source's
`sort_values('RVol', ascending=False)` (default non-stable kind; pandas forms
the ascending argsort and reverses it for a descending sort) returns BBB
before AAA, while the claim's stable catalog-order tie-breaking requires AAA
before BBB. -/
theorem top_picks_tie_order_eval :
    top_picks [rowA, rowB] = [rowB, rowA] ∧
      top_picks_spec [rowA, rowB] = [rowA, rowB] ∧
      top_picks [rowA, rowB] ≠ top_picks_spec [rowA, rowB] := by
  refine ⟨?_, ?_, ?_⟩ <;> with_unfolding_all decide

/-- C5 counterexample: on `dmGate` the sector "AI Mobile Chips" has breadth
exactly 1/2 with strong alpha and volume subscores, so the hard gate clamps
its raw score 70 to 59 — and 59 is not in the claimed score set
{0,10,…,100}. -/
theorem sector_score_fifty_nine :
    (run_strict_algorithm dmGate).map (·.heatScore) = [59, 59] ∧
      (59 : Nat) ∉ [0, 10, 20, 30, 40, 50, 60, 70, 80, 90, 100] := by
  refine ⟨?_, ?_⟩ <;> with_unfolding_all decide

/-- C1: Qualification gate: given that the Benchmark series is present in the
fetched snapshot, a stock `t` listed in a catalog sector is in that sector's
qualifying set (a scored-and-counted entry carries its ticker) if and only if
the provider returned a series for its canonicalized symbol, that series has
more than 22 samples, and its most recent date equals the Benchmark's most
recent date; a stock failing any condition is silently dropped — the
embedding is total and produces no error value. -/
theorem qualification_gate (raw : String → Option Series) (spy : Series)
    (hspy : fetch_safe_data raw "SPY" = some spy) (sec : String) (ts : List String)
    (hsec : (sec, ts) ∈ PLAYBOOK) (t : String) (ht : t ∈ ts) :
    (∃ e ∈ sectorEntries (fetch_safe_data raw) (lastDate spy) (benchChange spy) ts,
        e.ticker = t) ↔
      ∃ df, raw (clean t) = some df ∧ 22 < df.length ∧ lastDate df = lastDate spy := by
  rw [mem_sectorEntries_ticker ht, stockEntry_eq_some_iff]
  constructor
  · rintro ⟨df, hdf, hdate⟩
    obtain ⟨hraw, hlen⟩ := fetch_some_iff.mp hdf
    exact ⟨df, hraw, hlen, hdate⟩
  · rintro ⟨df, hraw, hlen, hdate⟩
    exact ⟨df, fetch_some_iff.mpr ⟨hraw, hlen⟩, hdate⟩

/-- A provider snapshot matching `dmFlat`, for exercising the fetch gate. -/
def rawFlat : String → Option Series := fun s =>
  if s = "SPY" then some (flatSeries 100 10)
  else if s = "PLTR" then some (flatSeries 50 10) else none

/-- Witness for C1 at a concrete input: PLTR in "AI Apps & Software" under
`rawFlat`. -/
theorem qualification_gate_witness :
    fetch_safe_data rawFlat "SPY" = some (flatSeries 100 10) ∧
      ("AI Apps & Software", ["PLTR", "ZETA", "APP", "RDDT", "TWLO"]) ∈ PLAYBOOK ∧
      "PLTR" ∈ ["PLTR", "ZETA", "APP", "RDDT", "TWLO"] ∧
      ((∃ e ∈ sectorEntries (fetch_safe_data rawFlat) (lastDate (flatSeries 100 10))
          (benchChange (flatSeries 100 10)) ["PLTR", "ZETA", "APP", "RDDT", "TWLO"],
          e.ticker = "PLTR") ↔
        ∃ df, rawFlat (clean "PLTR") = some df ∧ 22 < df.length ∧
          lastDate df = lastDate (flatSeries 100 10)) :=
  ⟨by with_unfolding_all decide, by decide, by decide,
   qualification_gate rawFlat (flatSeries 100 10) (by with_unfolding_all decide)
     "AI Apps & Software" ["PLTR", "ZETA", "APP", "RDDT", "TWLO"] (by decide)
     "PLTR" (by decide)⟩

/-- C2: Hard-gate invariant: every result row of a scan carries the gated
score of its catalog sector, and whenever that sector's breadth `pct_green`
is at most 1/2, the row's sector score is at most 59. -/
theorem hard_gate_invariant (dm : DataMap) (spy : Series) (hspy : dm "SPY" = some spy)
    (r : ResultRow) (hr : r ∈ run_strict_algorithm dm) :
    ∃ ts, (r.sector, ts) ∈ PLAYBOOK ∧
      r.heatScore = sectorGatedScore (sectorEntries dm (lastDate spy) (benchChange spy) ts) ∧
      (pctGreenOf (sectorEntries dm (lastDate spy) (benchChange spy) ts) ≤ 1/2 →
        r.heatScore ≤ 59) := by
  obtain ⟨ts, hp, hh⟩ := run_sector_heat hspy hr
  refine ⟨ts, hp, hh, fun hg => ?_⟩
  rw [hh]
  unfold sectorGatedScore
  rw [if_pos hg]
  exact min_le_right _ _

/-- The result row the scan computes for ARM on `dmGate`: raw stock score
100, but sector score clamped to 59 by the hard gate (breadth is 1/2). -/
def gateRowARM : ResultRow :=
  { sector := "AI Mobile Chips", ticker := "ARM", heatScore := 59, stockScore := 100,
    rvol := 10, changePct := 100, price := 20, size := 1 }

/-- Witness for C2 at a concrete input: the ARM row of `dmGate`, whose sector
has breadth exactly 1/2 and gated score 59 ≤ 59. -/
theorem hard_gate_invariant_witness :
    dmGate "SPY" = some (flatSeries 100 10) ∧ gateRowARM ∈ run_strict_algorithm dmGate ∧
      ∃ ts, (gateRowARM.sector, ts) ∈ PLAYBOOK ∧
        gateRowARM.heatScore = sectorGatedScore
          (sectorEntries dmGate (lastDate (flatSeries 100 10))
            (benchChange (flatSeries 100 10)) ts) ∧
        (pctGreenOf (sectorEntries dmGate (lastDate (flatSeries 100 10))
            (benchChange (flatSeries 100 10)) ts) ≤ 1/2 →
          gateRowARM.heatScore ≤ 59) :=
  ⟨by with_unfolding_all decide, by with_unfolding_all decide,
   hard_gate_invariant dmGate (flatSeries 100 10) (by with_unfolding_all decide)
     gateRowARM (by with_unfolding_all decide)⟩

/-- C5 (amended): every stock score emitted by a scan lies in the subset-sum
set {0,10,20,…,100} of the weights 40/30/20/10, and every sector gated score
lies in {0,10,20,…,100} ∪ {59}, the extra value 59 arising exactly when the
hard gate clamps a raw 60/70/90. -/
theorem score_bounds_amended (dm : DataMap) (r : ResultRow)
    (hr : r ∈ run_strict_algorithm dm) :
    r.stockScore ∈ [0, 10, 20, 30, 40, 50, 60, 70, 80, 90, 100] ∧
      r.heatScore ∈ [0, 10, 20, 30, 40, 50, 59, 60, 70, 80, 90, 100] := by
  cases hspy : dm "SPY" with
  | none =>
    unfold run_strict_algorithm at hr
    rw [hspy] at hr
    simp at hr
  | some spy =>
    rw [mem_run hspy] at hr
    obtain ⟨⟨sec, ts⟩, hp, hrp⟩ := hr
    rw [mem_sectorPass] at hrp
    obtain ⟨e, he, rfl⟩ := hrp
    constructor
    · rw [sectorEntries, List.mem_filterMap] at he
      obtain ⟨u, _, hue⟩ := he
      exact stockEntry_score_mem hue
    · exact sectorGatedScore_mem _

/-- Witness for the amended C5: the ARM row of `dmGate`, with stock score 100
and gated sector score 59. -/
theorem score_bounds_amended_witness :
    gateRowARM ∈ run_strict_algorithm dmGate ∧
      gateRowARM.stockScore ∈ [0, 10, 20, 30, 40, 50, 60, 70, 80, 90, 100] ∧
      gateRowARM.heatScore ∈ [0, 10, 20, 30, 40, 50, 59, 60, 70, 80, 90, 100] :=
  ⟨by with_unfolding_all decide,
   (score_bounds_amended dmGate gateRowARM (by with_unfolding_all decide)).1,
   (score_bounds_amended dmGate gateRowARM (by with_unfolding_all decide)).2⟩

/-- C10: Duplicate-symbol consistency: within one scan, a ticker listed in
two catalog sectors receives the same qualifying entry — alpha, relative
volume, above-MA flag, raw stock score, change percentage and price all
identical — because the per-stock computation reads only the symbol's series
and the benchmark figures, never the enclosing sector. -/
theorem duplicate_symbol_consistent (dm : DataMap) (d : Nat) (c : ℚ)
    (s1 s2 : String) (ts1 ts2 : List String)
    (h1 : (s1, ts1) ∈ PLAYBOOK) (h2 : (s2, ts2) ∈ PLAYBOOK) (t : String)
    (e1 e2 : StockRow) (he1 : e1 ∈ sectorEntries dm d c ts1)
    (he2 : e2 ∈ sectorEntries dm d c ts2) (ht1 : e1.ticker = t) (ht2 : e2.ticker = t) :
    e1 = e2 := by
  rw [sectorEntries, List.mem_filterMap] at he1 he2
  obtain ⟨u1, _, hu1⟩ := he1
  obtain ⟨u2, _, hu2⟩ := he2
  have k1 : u1 = t := (stockEntry_ticker hu1).symm.trans ht1
  have k2 : u2 = t := (stockEntry_ticker hu2).symm.trans ht2
  subst k1
  subst k2
  exact Option.some.inj (hu1.symm.trans hu2)

/-- Witness for C10 at a concrete input: GOOG, listed both in
"AI Custom Chips" and in "SpaceX Concepts", gets the same entry `googRow`
in both sectors of `dmGoog`. -/
theorem duplicate_symbol_consistent_witness :
    ("AI Custom Chips", ["AVGO", "MRVL", "GOOG", "AMZN"]) ∈ PLAYBOOK ∧
      ("SpaceX Concepts", ["SATS", "DXYZ", "GOOG", "SMT.L", "ARKVX"]) ∈ PLAYBOOK ∧
      googRow ∈ sectorEntries dmGoog 22 0 ["AVGO", "MRVL", "GOOG", "AMZN"] ∧
      googRow ∈ sectorEntries dmGoog 22 0 ["SATS", "DXYZ", "GOOG", "SMT.L", "ARKVX"] ∧
      googRow = googRow :=
  ⟨by decide, by decide, by with_unfolding_all decide, by with_unfolding_all decide,
   duplicate_symbol_consistent dmGoog 22 0 "AI Custom Chips" "SpaceX Concepts"
     ["AVGO", "MRVL", "GOOG", "AMZN"] ["SATS", "DXYZ", "GOOG", "SMT.L", "ARKVX"]
     (by decide) (by decide) "GOOG" googRow googRow
     (by with_unfolding_all decide) (by with_unfolding_all decide)
     (by decide) (by decide)⟩

theorem banner_of_consistent (df : List ResultRow)
    (hcons : ∀ r1 ∈ df, ∀ r2 ∈ df, r1.sector = r2.sector → r1.heatScore = r2.heatScore) :
    passingSectors df = specPassing df := by
  unfold passingSectors specPassing
  apply congrArg List.length
  apply List.filter_congr
  intro s hs
  rw [decide_eq_decide]
  have hs2 : ∃ r ∈ df, r.sector = s := by
    rw [uniqueSectors, List.mem_dedup, List.mem_map] at hs
    obtain ⟨r, hr, hrs⟩ := hs
    exact ⟨r, hr, hrs⟩
  obtain ⟨r0, hr0, hr0s⟩ := hs2
  have hfind : ∃ rf, df.find? (fun r => r.sector = s) = some rf := by
    cases hf : df.find? (fun r => r.sector = s) with
    | some rf => exact ⟨rf, rfl⟩
    | none =>
      have := List.find?_eq_none.mp hf r0 hr0
      simp [hr0s] at this
  obtain ⟨rf, hf⟩ := hfind
  have hfmem := List.mem_of_find?_eq_some hf
  have hfsec : rf.sector = s := by
    have := List.find?_some hf
    simpa using this
  unfold firstScore
  rw [hf]
  constructor
  · intro h60 r hr hrs
    rw [hcons r hr rf hfmem (hrs.trans hfsec.symm)]
    exact h60
  · intro hall
    exact hall rf hfmem hfsec

/-- C8: Market-health banner: for a nonempty scan result, the banner ratio
equals the number of scored sectors whose gated score is at least 60 (the
score carried by all of the sector's rows) divided by the total number of
scored sectors, and the tier is BULLISH iff the ratio exceeds 1/2, CHOPPY iff
it does not exceed 1/2 but exceeds 3/10, and DEFENSIVE otherwise. -/
theorem market_health_ratio (dm : DataMap) (hne : run_strict_algorithm dm ≠ []) :
    marketRatio (run_strict_algorithm dm) =
      (specPassing (run_strict_algorithm dm) : ℚ) /
        (totalSectors (run_strict_algorithm dm) : ℚ) ∧
    (marketStatus (run_strict_algorithm dm) = "BULLISH" ↔
      1/2 < marketRatio (run_strict_algorithm dm)) ∧
    (marketStatus (run_strict_algorithm dm) = "CHOPPY" ↔
      (¬ 1/2 < marketRatio (run_strict_algorithm dm) ∧
        3/10 < marketRatio (run_strict_algorithm dm))) ∧
    (marketStatus (run_strict_algorithm dm) = "DEFENSIVE" ↔
      (¬ 1/2 < marketRatio (run_strict_algorithm dm) ∧
        ¬ 3/10 < marketRatio (run_strict_algorithm dm))) := by
  have hcons : ∀ r1 ∈ run_strict_algorithm dm, ∀ r2 ∈ run_strict_algorithm dm,
      r1.sector = r2.sector → r1.heatScore = r2.heatScore :=
    fun r1 h1 r2 h2 hs => run_heat_consistent h1 h2 hs
  refine ⟨?_, ?_, ?_, ?_⟩
  · unfold marketRatio
    rw [banner_of_consistent _ hcons]
  · unfold marketStatus
    split_ifs with h1 h2
    · exact ⟨fun _ => h1, fun _ => rfl⟩
    · exact ⟨fun h => absurd h (by decide), fun hlt => absurd hlt h1⟩
    · exact ⟨fun h => absurd h (by decide), fun hlt => absurd hlt h1⟩
  · unfold marketStatus
    split_ifs with h1 h2
    · exact ⟨fun h => absurd h (by decide), fun h3 => absurd h1 h3.1⟩
    · exact ⟨fun _ => ⟨h1, h2⟩, fun _ => rfl⟩
    · exact ⟨fun h => absurd h (by decide), fun h3 => absurd h3.2 h2⟩
  · unfold marketStatus
    split_ifs with h1 h2
    · exact ⟨fun h => absurd h (by decide), fun h3 => absurd h1 h3.1⟩
    · exact ⟨fun h => absurd h (by decide), fun h3 => absurd h2 h3.2⟩
    · exact ⟨fun _ => ⟨h1, h2⟩, fun _ => rfl⟩

/-- Witness for C8 at a concrete input: on `dmGate` one sector is scored,
with gated score 59 < 60, so the ratio is 0 and the tier is DEFENSIVE. -/
theorem market_health_ratio_witness :
    run_strict_algorithm dmGate ≠ [] ∧
      (marketRatio (run_strict_algorithm dmGate) =
        (specPassing (run_strict_algorithm dmGate) : ℚ) /
          (totalSectors (run_strict_algorithm dmGate) : ℚ) ∧
      (marketStatus (run_strict_algorithm dmGate) = "BULLISH" ↔
        1/2 < marketRatio (run_strict_algorithm dmGate)) ∧
      (marketStatus (run_strict_algorithm dmGate) = "CHOPPY" ↔
        (¬ 1/2 < marketRatio (run_strict_algorithm dmGate) ∧
          3/10 < marketRatio (run_strict_algorithm dmGate))) ∧
      (marketStatus (run_strict_algorithm dmGate) = "DEFENSIVE" ↔
        (¬ 1/2 < marketRatio (run_strict_algorithm dmGate) ∧
          ¬ 3/10 < marketRatio (run_strict_algorithm dmGate)))) :=
  ⟨by with_unfolding_all decide, market_health_ratio dmGate (by with_unfolding_all decide)⟩

